import Mathlib

/-!
Shallow embedding of the OAuth 2.0 authorization server (oauth.py) and of the
resilient RPC gateway (odoo_client.py with its cache layer cache.py) of the
OdooMCP server, together with theorems about their behaviour.

Modelling conventions: Python dicts are modelled as association lists with
dictionary semantics (lookup finds the value stored at a key, erase removes a
key entirely, insert overwrites the key and is used only with fresh keys);
randomness (secrets.token_urlsafe) and wall-clock time (time.time) are passed
in as explicit parameters; raised exceptions become error values of explicit
inductive types, one constructor per message in the source.
-/

deriving instance DecidableEq for Except

/-- Dictionary lookup on an association list: value stored at a key. -/
def alookup {α : Type} : List (String × α) → String → Option α
  | [], _ => none
  | p :: rest, key => if p.1 = key then some p.2 else alookup rest key

/-- Dictionary deletion: removes every binding of the key, as a dict holds at
most one. -/
def aerase {α : Type} : List (String × α) → String → List (String × α)
  | [], _ => []
  | p :: rest, key => if p.1 = key then aerase rest key else p :: aerase rest key

/-- Dictionary insertion or overwrite of a key. -/
def ainsert {α : Type} (l : List (String × α)) (key : String) (v : α) :
    List (String × α) :=
  aerase l key ++ [(key, v)]

/-!
OAuth data model, following oauth.py. Each stored dict value becomes a
structure; optional Python values become Option.
-/

/-- Value stored in the oauth_codes dict (oauth.py lines 51 to 58). -/
structure CodeData where
  client_id : String
  redirect_uri : String
  state : Option String
  scope : String
  created_at : Nat
  expires_at : Nat
deriving DecidableEq

/-- Value stored in the oauth_tokens dict (oauth.py lines 119 to 125). -/
structure TokenData where
  client_id : String
  scope : String
  created_at : Nat
  expires_at : Nat
  refresh_token : String
deriving DecidableEq

/-- Value stored in the oauth_clients dict (oauth.py lines 259 to 269); the
static client of get_client has only the four fields it mentions, so the
remaining fields take inert defaults there. -/
structure ClientData where
  client_id : String
  client_secret : Option String
  client_name : String
  redirect_uris : List String
  grant_types : List String
  response_types : List String
  token_endpoint_auth_method : String
  scope : String
  client_id_issued_at : Nat
deriving DecidableEq

/-- The three module-level OAuth dicts of oauth.py (oauth_codes, oauth_tokens,
oauth_clients). -/
structure OAuthState where
  codes : List (String × CodeData)
  tokens : List (String × TokenData)
  clients : List (String × ClientData)
deriving DecidableEq

/-- OAuth validation failures; one constructor per distinct ValueError message
raised in oauth.py. InvalidGrant covers both of the messages that reject an
unknown or unusable grant: Invalid authorization code, and Invalid refresh
token. ExpiredGrant is Authorization code expired; ClientMismatch is Client
ID mismatch; InvalidClient covers Client not found and Invalid client_id;
InvalidClientSecret is Invalid client secret; RedirectMismatch is Redirect
URI mismatch; UnauthorizedRedirect is Unauthorized redirect_uri;
InvalidRequest is the register_client message that redirect_uris must be a
non-empty list. -/
inductive OAuthError where
  | InvalidGrant
  | ExpiredGrant
  | ClientMismatch
  | InvalidClient
  | InvalidClientSecret
  | RedirectMismatch
  | UnauthorizedRedirect
  | InvalidRequest
deriving DecidableEq

/-- The token response dict returned by exchange_code_for_token and
refresh_access_token. -/
structure TokenResponse where
  access_token : String
  token_type : String
  expires_in : Nat
  refresh_token : String
  scope : String
deriving DecidableEq

/-- The RFC 7591 response dict of register_client; client_secret is an Option
because the dict key is only present when a secret was generated. -/
structure RegisterResponse where
  client_id : String
  client_name : String
  redirect_uris : List String
  grant_types : List String
  response_types : List String
  token_endpoint_auth_method : String
  client_id_issued_at : Nat
  client_secret : Option String
deriving DecidableEq

/-- The OAuthManager instance fields that the operations read: the static
client identity (oauth.py lines 21 to 23). -/
structure OAuthManager where
  client_id : String
  client_secret : String
deriving DecidableEq

/-- code_expiry_seconds, 10 minutes (oauth.py line 24). -/
def code_expiry_seconds : Nat := 600

/-- token_expiry_seconds, 24 hours (oauth.py line 25). -/
def token_expiry_seconds : Nat := 3600 * 24

/-- OAuthManager.get_client (oauth.py lines 297 to 312): the static
pre-provisioned client when the id matches, otherwise a lookup of the
dynamically registered clients. -/
def OAuthManager.get_client (m : OAuthManager) (st : OAuthState)
    (client_id : String) : Option ClientData :=
  if client_id = m.client_id then
    some { client_id := m.client_id
           client_secret := some m.client_secret
           client_name := ""
           redirect_uris := ["https://chatgpt.com/oauth/callback",
                             "https://chat.openai.com/oauth/callback"]
           grant_types := []
           response_types := []
           token_endpoint_auth_method := "client_secret_basic"
           scope := ""
           client_id_issued_at := 0 }
  else alookup st.clients client_id

/-- OAuthManager.generate_authorization_code (oauth.py lines 27 to 67).
now models time.time(); fresh_code models secrets.token_urlsafe(32). -/
def generate_authorization_code (m : OAuthManager) (st : OAuthState)
    (now : Nat) (fresh_code : String) (client_id redirect_uri : String)
    (state : Option String) (scope : Option String) :
    OAuthState × Except OAuthError String :=
  match m.get_client st client_id with
  | none => (st, .error .InvalidClient)
  | some client =>
    if redirect_uri ∈ client.redirect_uris then
      let cd : CodeData :=
        { client_id := client_id
          redirect_uri := redirect_uri
          state := state
          scope := scope.getD "odoo:read odoo:write"
          created_at := now
          expires_at := now + code_expiry_seconds }
      ({ st with codes := ainsert st.codes fresh_code cd }, .ok fresh_code)
    else (st, .error .UnauthorizedRedirect)

/-- OAuthManager.exchange_code_for_token (oauth.py lines 69 to 143). now
models time.time(); fresh_access and fresh_refresh model the two
secrets.token_urlsafe(48) draws. The checks appear in source order: code
exists, code not expired (an expired code is deleted), client_id of the code
matches, client resolvable, secret correct unless the auth method is none,
redirect_uri matches; then the token is stored and the code deleted. -/
def exchange_code_for_token (m : OAuthManager) (st : OAuthState) (now : Nat)
    (fresh_access fresh_refresh : String) (code client_id : String)
    (client_secret : Option String) (redirect_uri : String) :
    OAuthState × Except OAuthError TokenResponse :=
  match alookup st.codes code with
  | none => (st, .error .InvalidGrant)
  | some code_data =>
    if now > code_data.expires_at then
      ({ st with codes := aerase st.codes code }, .error .ExpiredGrant)
    else if code_data.client_id ≠ client_id then
      (st, .error .ClientMismatch)
    else
      match m.get_client st client_id with
      | none => (st, .error .InvalidClient)
      | some client =>
        if client.token_endpoint_auth_method ≠ "none" ∧
            client_secret ≠ client.client_secret then
          (st, .error .InvalidClientSecret)
        else if code_data.redirect_uri ≠ redirect_uri then
          (st, .error .RedirectMismatch)
        else
          let td : TokenData :=
            { client_id := client_id
              scope := code_data.scope
              created_at := now
              expires_at := now + token_expiry_seconds
              refresh_token := fresh_refresh }
          ({ st with
              tokens := ainsert st.tokens fresh_access td
              codes := aerase st.codes code },
           .ok { access_token := fresh_access
                 token_type := "Bearer"
                 expires_in := token_expiry_seconds
                 refresh_token := fresh_refresh
                 scope := code_data.scope })

/-- OAuthManager.validate_token (oauth.py lines 145 to 161): false when the
token is unknown; an expired token is deleted and rejected; otherwise true. -/
def validate_token (st : OAuthState) (now : Nat) (access_token : String) :
    OAuthState × Bool :=
  match alookup st.tokens access_token with
  | none => (st, false)
  | some token_data =>
    if now > token_data.expires_at then
      ({ st with tokens := aerase st.tokens access_token }, false)
    else (st, true)

/-- Linear scan of the tokens dict for the entry whose refresh_token matches,
as in the for loop of refresh_access_token (oauth.py lines 172 to 176). -/
def find_by_refresh : List (String × TokenData) → String →
    Option (String × TokenData)
  | [], _ => none
  | p :: rest, rt =>
    if p.2.refresh_token = rt then some p else find_by_refresh rest rt

/-- OAuthManager.refresh_access_token (oauth.py lines 163 to 226). The
Python truthiness test if not old_token also rejects a matching entry keyed
by the empty string, hence the explicit test. On success the new token is
stored first and the old one deleted afterwards, as in the source. -/
def refresh_access_token (m : OAuthManager) (st : OAuthState) (now : Nat)
    (fresh_access fresh_refresh : String) (refresh_token client_id : String)
    (client_secret : Option String) :
    OAuthState × Except OAuthError TokenResponse :=
  match find_by_refresh st.tokens refresh_token with
  | none => (st, .error .InvalidGrant)
  | some old =>
    if old.1 = "" then (st, .error .InvalidGrant)
    else if old.2.client_id ≠ client_id then (st, .error .ClientMismatch)
    else
      match m.get_client st client_id with
      | none => (st, .error .InvalidClient)
      | some client =>
        if client.token_endpoint_auth_method ≠ "none" ∧
            client_secret ≠ client.client_secret then
          (st, .error .InvalidClientSecret)
        else
          let td : TokenData :=
            { client_id := client_id
              scope := old.2.scope
              created_at := now
              expires_at := now + token_expiry_seconds
              refresh_token := fresh_refresh }
          ({ st with
              tokens := aerase (ainsert st.tokens fresh_access td) old.1 },
           .ok { access_token := fresh_access
                 token_type := "Bearer"
                 expires_in := token_expiry_seconds
                 refresh_token := fresh_refresh
                 scope := old.2.scope })

/-- OAuthManager.register_client (oauth.py lines 228 to 295). fresh_id models
secrets.token_urlsafe(16) and fresh_secret the token_urlsafe(32) draw; the
generated client_id carries the dynamic- marker. The redirect_uris check
happens before anything is stored, so a failing registration leaves the
state unchanged. -/
def register_client (st : OAuthState) (now : Nat)
    (fresh_id fresh_secret : String) (client_name : String)
    (redirect_uris : List String) (grant_types response_types :
    Option (List String)) (token_endpoint_auth_method : String)
    (scope : Option String) : OAuthState × Except OAuthError RegisterResponse :=
  let client_id := "dynamic-" ++ fresh_id
  let client_secret : Option String :=
    if token_endpoint_auth_method = "none" then none else some fresh_secret
  let gts := grant_types.getD ["authorization_code", "refresh_token"]
  let rts := response_types.getD ["code"]
  let sc := scope.getD "odoo:read odoo:write"
  if redirect_uris = [] then (st, .error .InvalidRequest)
  else
    let cd : ClientData :=
      { client_id := client_id
        client_secret := client_secret
        client_name := client_name
        redirect_uris := redirect_uris
        grant_types := gts
        response_types := rts
        token_endpoint_auth_method := token_endpoint_auth_method
        scope := sc
        client_id_issued_at := now }
    ({ st with clients := ainsert st.clients client_id cd },
     .ok { client_id := client_id
           client_name := client_name
           redirect_uris := redirect_uris
           grant_types := gts
           response_types := rts
           token_endpoint_auth_method := token_endpoint_auth_method
           client_id_issued_at := now
           client_secret := client_secret })

/-!
RPC gateway model, following odoo_client.py and cache.py. A remote call whose
outcome may differ per attempt is a function from the attempt index to an
Except value; the retry helper returns the final outcome together with the
number of invocations of the underlying function and the total seconds slept.
-/

/-- Inner loop of OdooClient retry_with_backoff (odoo_client.py lines 90 to
116), structurally recursive on the number of remaining attempts. attempt is
the index of the next attempt; on a failure that is not the last attempt the
loop sleeps 2 to the power attempt seconds; after the last failure the last
error is re-raised. The result carries the outcome, the number of calls made
from here on, and the seconds slept from here on. -/
def retryGo {E A : Type} (f : Nat → Except E A) :
    Nat → Nat → E → Except E A × Nat × Nat
  | _, 0, lastErr => (.error lastErr, 0, 0)
  | attempt, remaining + 1, _ =>
    match f attempt with
    | .ok v => (.ok v, 1, 0)
    | .error e =>
      if remaining = 0 then (.error e, 1, 0)
      else
        let r := retryGo f (attempt + 1) remaining e
        (r.1, r.2.1 + 1, r.2.2 + 2 ^ attempt)

/-- OdooClient retry_with_backoff (odoo_client.py lines 90 to 116): up to
max_retries attempts starting at attempt 0; initErr models the initial
last_error value Exception with message No attempts made, raised only when
max_retries is zero. -/
def retry_with_backoff {E A : Type} (f : Nat → Except E A)
    (max_retries : Nat) (initErr : E) : Except E A × Nat × Nat :=
  retryGo f 0 max_retries initErr

/-- Python truthiness of the memoized uid: None and 0 are falsy
(odoo_client.py line 128 tests if self. uid). -/
def pyTruthyInt : Option Int → Bool
  | none => false
  | some u => u != 0

/-- OdooClient.authenticate (odoo_client.py lines 118 to 153). backendAuth
gives the outcome of the remote authentication primitive at each attempt
index; the error strings model str of the raised exception. The result is
the outcome (the error case is raised as OdooAuthenticationError), the new
memoized uid, and the number of invocations of the backend primitive. -/
def authenticate (backendAuth : Nat → Except String Int) (max_retries : Nat)
    (username db : String) (uid : Option Int) :
    Except String Int × Option Int × Nat :=
  if pyTruthyInt uid then (.ok (uid.getD 0), uid, 0)
  else
    let r := retry_with_backoff backendAuth max_retries "No attempts made"
    match r.1 with
    | .error msg => (.error ("Authentication error: " ++ msg), uid, r.2.1)
    | .ok u =>
      if u = 0 then
        (.error ("Authentication error: Authentication failed for user " ++
          username ++ " on database " ++ db), uid, r.2.1)
      else (.ok u, some u, r.2.1)

/-- authenticate() called N times in sequence starting from an empty memo,
accumulating the total number of backend invocations and the list of
results. -/
def authenticate_times (backendAuth : Nat → Except String Int)
    (max_retries : Nat) (username db : String) :
    Nat → Option Int × Nat × List (Except String Int)
  | 0 => (none, 0, [])
  | n + 1 =>
    let p := authenticate_times backendAuth max_retries username db n
    let q := authenticate backendAuth max_retries username db p.1
    (q.2.1, p.2.1 + q.2.2, p.2.2 ++ [q.1])

/-- Exceptions of the gateway taxonomy (odoo_client.py lines 15 to 27):
clientError is OdooClientError (the generic remote-call error) and authError
is its subclass OdooAuthenticationError, each carrying its message. -/
inductive OdooExc where
  | clientError (msg : String)
  | authError (msg : String)
deriving DecidableEq

/-- OdooClient.execute_kw (odoo_client.py lines 155 to 212). It first runs
authenticate, then the retried generic execution primitive; remoteExec gives
the outcome of that primitive per uid and attempt index. Any exception
raised inside the try block, including the OdooAuthenticationError coming
out of authenticate, is caught and re-raised as a plain OdooClientError
wrapping str of the original. The result carries the outcome, the memoized
uid after the call, and the total number of backend invocations. -/
def execute_kw {A : Type} (backendAuth : Nat → Except String Int)
    (remoteExec : Int → Nat → Except String A) (max_retries : Nat)
    (username db model method : String) (uid : Option Int) :
    Except OdooExc A × Option Int × Nat :=
  let a := authenticate backendAuth max_retries username db uid
  match a.1 with
  | .error msg =>
    (.error (.clientError ("Error calling " ++ model ++ "." ++ method ++
      ": " ++ msg)), a.2.1, a.2.2)
  | .ok u =>
    let r := retry_with_backoff (remoteExec u) max_retries "No attempts made"
    match r.1 with
    | .error msg =>
      (.error (.clientError ("Error calling " ++ model ++ "." ++ method ++
        ": " ++ msg)), a.2.1, a.2.2 + r.2.1)
    | .ok v => (.ok v, a.2.1, a.2.2 + r.2.1)

/-!
Cache layer, following cache.py. The optional Redis backend is a record of
possibly failing operations; the local dict backend never fails. JSON
serialization is abstracted as a pair of possibly failing functions.
-/

/-- The subset of the Redis client interface used by CacheManager; every
operation may fail, modelling a raised exception with its message. -/
structure RedisClient where
  rget : String → Except String (Option String)
  rsetex : String → Nat → String → Except String Unit
  rdel : String → Except String Unit
  rflushdb : Unit → Except String Unit

/-- CacheManager make_key (cache.py lines 18 to 21): colon-joined parts. -/
def make_key (parts : List String) : String :=
  String.intercalate ":" parts

/-- Python ttl or self.ttl (cache.py line 45): a ttl of None or 0 falls back
to the default. -/
def py_ttl (ttl : Option Nat) (dttl : Nat) : Nat :=
  match ttl with
  | none => dttl
  | some t => if t = 0 then dttl else t

/-- CacheManager.get (cache.py lines 23 to 40). With a Redis backend a raised
error, a missing value, an empty value (falsy) or an undecodable value all
yield None; with the local dict a plain lookup. loads models json.loads. -/
def cache_get {V : Type} (redis : Option RedisClient)
    (loads : String → Except String V) (localc : List (String × V))
    (key : String) : Option V :=
  match redis with
  | some r =>
    match r.rget key with
    | .error _ => none
    | .ok none => none
    | .ok (some s) =>
      if s = "" then none
      else
        match loads s with
        | .error _ => none
        | .ok v => some v
  | none => alookup localc key

/-- CacheManager.set (cache.py lines 42 to 58). dumps models json.dumps; a
failure of serialization or of the backend is swallowed and acknowledged
with false; the local path stores into the dict and returns true. -/
def cache_set {V : Type} (redis : Option RedisClient)
    (dumps : V → Except String String) (dttl : Nat)
    (localc : List (String × V)) (key : String) (v : V) (ttl : Option Nat) :
    List (String × V) × Bool :=
  match redis with
  | some r =>
    match dumps v with
    | .error _ => (localc, false)
    | .ok s =>
      match r.rsetex key (py_ttl ttl dttl) s with
      | .error _ => (localc, false)
      | .ok _ => (localc, true)
  | none => (ainsert localc key v, true)

/-- CacheManager.delete (cache.py lines 60 to 72). -/
def cache_delete {V : Type} (redis : Option RedisClient)
    (localc : List (String × V)) (key : String) : List (String × V) × Bool :=
  match redis with
  | some r =>
    match r.rdel key with
    | .error _ => (localc, false)
    | .ok _ => (localc, true)
  | none => (aerase localc key, true)

/-- CacheManager.clear (cache.py lines 74 to 86). -/
def cache_clear {V : Type} (redis : Option RedisClient)
    (localc : List (String × V)) : List (String × V) × Bool :=
  match redis with
  | some r =>
    match r.rflushdb () with
    | .error _ => (localc, false)
    | .ok _ => (localc, true)
  | none => ([], true)

/-- Python str of an optional int, as passed to make_key: str(None) is the
string None. -/
def pyStrOptInt : Option Int → String
  | none => "None"
  | some i => toString i

/-- Python str of an optional string, as passed to make_key. -/
def pyStrOptStr : Option String → String
  | none => "None"
  | some s => s

/-- The cache key built by OdooClient.search (odoo_client.py lines 245 to
247): make_key of the operation tag and the five stringified parameters. -/
def search_cache_key (model domainStr : String) (limit : Option Int)
    (offset : Int) (order : Option String) : String :=
  make_key ["search", model, domainStr, pyStrOptInt limit,
            toString offset, pyStrOptStr order]

/-- The caching guard of OdooClient.search (odoo_client.py line 244): Python
evaluates limit and limit <= 100, so a limit of None or 0 is falsy and
disables caching. -/
def limit_cacheable : Option Int → Bool
  | none => false
  | some l => decide (l ≠ 0) && decide (l ≤ 100)

/-- OdooClient.search (odoo_client.py lines 214 to 257), with the remote
execution abstracted as a deterministic oracle over the five parameters and
the cache manager given by its backend and state. cm is whether a cache
manager is configured. The result carries the returned ids, the local cache
state after the call, and whether a remote call was performed. -/
def search (cm : Bool) (redis : Option RedisClient)
    (loads : String → Except String (List Int))
    (dumps : List Int → Except String String) (dttl : Nat)
    (remote : String → String → Option Int → Int → Option String → List Int)
    (localc : List (String × List Int)) (model domainStr : String)
    (limit : Option Int) (offset : Int) (order : Option String) :
    List Int × List (String × List Int) × Bool :=
  let ck : Option String :=
    if cm ∧ limit_cacheable limit then
      some (search_cache_key model domainStr limit offset order)
    else none
  match ck with
  | some k =>
    match cache_get redis loads localc k with
    | some v => (v, localc, false)
    | none =>
      let r := remote model domainStr limit offset order
      let s := cache_set redis dumps dttl localc k r none
      (r, s.1, true)
  | none => (remote model domainStr limit offset order, localc, true)

/-!
Theorems. First the dictionary lemmas, then per-claim results.
-/

theorem alookup_eq_none_of {α : Type} {l : List (String × α)} {k : String}
    (h : ∀ p ∈ l, p.1 ≠ k) : alookup l k = none := by
  induction l with
  | nil => rfl
  | cons p rest ih =>
    have h1 : p.1 ≠ k := h p (by simp)
    simp only [alookup, h1, if_false]
    exact ih (fun q hq => h q (List.mem_cons_of_mem p hq))

theorem mem_aerase {α : Type} {l : List (String × α)} {k : String}
    {p : String × α} (hp : p ∈ aerase l k) : p ∈ l ∧ p.1 ≠ k := by
  induction l with
  | nil => simp [aerase] at hp
  | cons q rest ih =>
    by_cases hq : q.1 = k
    · simp only [aerase, hq, if_true] at hp
      rcases ih hp with ⟨h1, h2⟩
      exact ⟨List.mem_cons_of_mem q h1, h2⟩
    · simp only [aerase, hq, if_false, List.mem_cons] at hp
      rcases hp with rfl | hp
      · exact ⟨List.mem_cons_self p rest, hq⟩
      · rcases ih hp with ⟨h1, h2⟩
        exact ⟨List.mem_cons_of_mem q h1, h2⟩

theorem alookup_aerase_self {α : Type} (l : List (String × α)) (k : String) :
    alookup (aerase l k) k = none :=
  alookup_eq_none_of (fun p hp => (mem_aerase hp).2)

theorem alookup_append_of_none {α : Type} {l1 : List (String × α)}
    (l2 : List (String × α)) {k : String} (h : alookup l1 k = none) :
    alookup (l1 ++ l2) k = alookup l2 k := by
  induction l1 with
  | nil => rfl
  | cons p rest ih =>
    by_cases hp : p.1 = k
    · simp [alookup, hp] at h
    · simp only [alookup, hp, if_false] at h
      simp only [List.cons_append, alookup, hp, if_false]
      exact ih h

theorem alookup_ainsert_self {α : Type} (l : List (String × α)) (k : String)
    (v : α) : alookup (ainsert l k v) k = some v := by
  unfold ainsert
  rw [alookup_append_of_none _ (alookup_aerase_self l k)]
  simp [alookup]

theorem alookup_aerase_ne {α : Type} (l : List (String × α)) {k k2 : String}
    (h : k2 ≠ k) : alookup (aerase l k) k2 = alookup l k2 := by
  induction l with
  | nil => rfl
  | cons p rest ih =>
    by_cases hp : p.1 = k
    · have hp2 : p.1 ≠ k2 := fun hc => h (hc.symm.trans hp)
      rw [show aerase (p :: rest) k = aerase rest k from by simp [aerase, hp]]
      rw [show alookup (p :: rest) k2 = alookup rest k2 from by
        simp [alookup, hp2]]
      exact ih
    · rw [show aerase (p :: rest) k = p :: aerase rest k from by
        simp [aerase, hp]]
      by_cases hq : p.1 = k2
      · rw [show alookup (p :: aerase rest k) k2 = some p.2 from by
          simp [alookup, hq]]
        rw [show alookup (p :: rest) k2 = some p.2 from by simp [alookup, hq]]
      · rw [show alookup (p :: aerase rest k) k2 = alookup (aerase rest k) k2
          from by simp [alookup, hq]]
        rw [show alookup (p :: rest) k2 = alookup rest k2 from by
          simp [alookup, hq]]
        exact ih

theorem mem_ainsert {α : Type} {l : List (String × α)} {k : String} {v : α}
    {p : String × α} (hp : p ∈ ainsert l k v) :
    (p ∈ l ∧ p.1 ≠ k) ∨ p = (k, v) := by
  unfold ainsert at hp
  rcases List.mem_append.mp hp with h | h
  · exact Or.inl (mem_aerase h)
  · simp at h
    exact Or.inr h

theorem find_by_refresh_eq_none_of {l : List (String × TokenData)}
    {rt : String} (h : ∀ p ∈ l, p.2.refresh_token ≠ rt) :
    find_by_refresh l rt = none := by
  induction l with
  | nil => rfl
  | cons p rest ih =>
    have h1 : p.2.refresh_token ≠ rt := h p (by simp)
    simp only [find_by_refresh, h1, if_false]
    exact ih (fun q hq => h q (List.mem_cons_of_mem p hq))

theorem replicate_snoc {α : Type} (n : Nat) (a : α) :
    List.replicate n a ++ [a] = List.replicate (n + 1) a := by
  induction n with
  | zero => rfl
  | succ n ih =>
    rw [show List.replicate (n + 1 + 1) a = a :: List.replicate (n + 1) a
      from rfl]
    rw [show List.replicate (n + 1) a ++ [a]
      = a :: (List.replicate n a ++ [a]) from rfl]
    rw [ih]

theorem nat_sub_double_add {x y : Nat} (h : x + x ≤ y) :
    y - (x + x) + x = y - x := by omega

theorem sum_two_pow (n : Nat) :
    (Finset.range n).sum (fun i => 2 ^ i) = 2 ^ n - 1 := by
  induction n with
  | zero => rfl
  | succ n ih =>
    rw [Finset.sum_range_succ, ih]
    have h1 : 0 < 2 ^ n := Nat.pow_pos (by norm_num)
    have h2 : 2 ^ (n + 1) = 2 ^ n + 2 ^ n := by rw [pow_succ]; ring
    omega

theorem retryGo_succ_ok {E A : Type} (f : Nat → Except E A)
    (attempt r : Nat) (e0 : E) (v : A) (h : f attempt = .ok v) :
    retryGo f attempt (r + 1) e0 = (.ok v, 1, 0) := by
  simp only [retryGo, h]

theorem retryGo_succ_err_last {E A : Type} (f : Nat → Except E A)
    (attempt : Nat) (e0 e : E) (h : f attempt = .error e) :
    retryGo f attempt 1 e0 = (.error e, 1, 0) := by
  simp only [retryGo, h]
  simp

theorem retryGo_succ_err {E A : Type} (f : Nat → Except E A)
    (attempt r : Nat) (e0 e : E) (h : f attempt = .error e) (hr : r ≠ 0) :
    retryGo f attempt (r + 1) e0 =
      ((retryGo f (attempt + 1) r e).1,
       (retryGo f (attempt + 1) r e).2.1 + 1,
       (retryGo f (attempt + 1) r e).2.2 + 2 ^ attempt) := by
  simp only [retryGo, h, if_neg hr]

theorem retryGo_ok {E A : Type} (f : Nat → Except E A) (v : A)
    (errs : Nat → E) :
    ∀ (k attempt remaining : Nat) (e0 : E), k < remaining →
    (∀ i, i < k → f (attempt + i) = .error (errs (attempt + i))) →
    f (attempt + k) = .ok v →
    retryGo f attempt remaining e0 =
      (.ok v, k + 1, 2 ^ (attempt + k) - 2 ^ attempt) := by
  intro k
  induction k with
  | zero =>
    intro attempt remaining e0 hk _ hok
    obtain ⟨r, rfl⟩ : ∃ r, remaining = r + 1 := ⟨remaining - 1, by omega⟩
    rw [retryGo_succ_ok f attempt r e0 v (by simpa using hok)]
    simp
  | succ k ih =>
    intro attempt remaining e0 hk herrs hok
    obtain ⟨r, rfl⟩ : ∃ r, remaining = r + 1 := ⟨remaining - 1, by omega⟩
    have hr : k < r := by omega
    have h0 : f attempt = .error (errs attempt) := by
      simpa using herrs 0 (by omega)
    rw [retryGo_succ_err f attempt r e0 (errs attempt) h0 (by omega)]
    rw [ih (attempt + 1) r (errs attempt) hr
      (fun i hi => by
        rw [show attempt + 1 + i = attempt + (i + 1) from by omega]
        exact herrs (i + 1) (by omega))
      (by rw [show attempt + 1 + k = attempt + (k + 1) from by omega]
          exact hok)]
    dsimp only
    have hpow : 2 ^ (attempt + 1) ≤ 2 ^ (attempt + 1 + k) :=
      Nat.pow_le_pow_right (by norm_num) (by omega)
    have hps : 2 ^ (attempt + 1) = 2 ^ attempt + 2 ^ attempt := by
      rw [pow_succ]; ring
    have hpow2 : 2 ^ attempt + 2 ^ attempt ≤ 2 ^ (attempt + 1 + k) := by
      rw [← hps]; exact hpow
    have harith : 2 ^ (attempt + 1 + k) - 2 ^ (attempt + 1) + 2 ^ attempt
        = 2 ^ (attempt + 1 + k) - 2 ^ attempt := by
      rw [hps]
      exact nat_sub_double_add hpow2
    rw [harith, show attempt + (k + 1) = attempt + 1 + k from by omega]

theorem retryGo_all_fail {E A : Type} (f : Nat → Except E A)
    (errs : Nat → E) :
    ∀ (remaining attempt : Nat) (e0 : E), 1 ≤ remaining →
    (∀ i, i < remaining → f (attempt + i) = .error (errs (attempt + i))) →
    retryGo f attempt remaining e0 =
      ((.error (errs (attempt + remaining - 1)) : Except E A), remaining,
       2 ^ (attempt + remaining - 1) - 2 ^ attempt) := by
  intro remaining
  induction remaining with
  | zero => intro attempt e0 h; omega
  | succ r ih =>
    intro attempt e0 _ herrs
    have h0 : f attempt = .error (errs attempt) := by
      simpa using herrs 0 (by omega)
    by_cases hr : r = 0
    · subst hr
      rw [retryGo_succ_err_last f attempt e0 (errs attempt) h0]
      simp
    · rw [retryGo_succ_err f attempt r e0 (errs attempt) h0 hr]
      rw [ih (attempt + 1) (errs attempt) (by omega)
        (fun i hi => by
          rw [show attempt + 1 + i = attempt + (i + 1) from by omega]
          exact herrs (i + 1) (by omega))]
      dsimp only
      have hpow : 2 ^ (attempt + 1) ≤ 2 ^ (attempt + 1 + r - 1) :=
        Nat.pow_le_pow_right (by norm_num) (by omega)
      have hps : 2 ^ (attempt + 1) = 2 ^ attempt + 2 ^ attempt := by
        rw [pow_succ]; ring
      have hpow2 : 2 ^ attempt + 2 ^ attempt ≤ 2 ^ (attempt + 1 + r - 1) := by
        rw [← hps]; exact hpow
      have harith : 2 ^ (attempt + 1 + r - 1) - 2 ^ (attempt + 1) +
          2 ^ attempt = 2 ^ (attempt + 1 + r - 1) - 2 ^ attempt := by
        rw [hps]
        exact nat_sub_double_add hpow2
      rw [harith, show attempt + (r + 1) - 1 = attempt + 1 + r - 1 from by
        omega]

/-- Claim C4: for the retry-with-backoff helper, a call that fails
deterministically on the first k attempts with k at most max_retries minus
one and then succeeds returns the success value after k plus one
invocations, having slept the sum of 2 to the i for i below k; a call that
fails on all attempts invokes the function exactly max_retries times, sleeps
the sum of 2 to the i for i below max_retries minus one (2 to the attempt
after every failure except the last), and re-raises the last error
verbatim. -/
theorem retry_with_backoff_spec {E A : Type} (f : Nat → Except E A)
    (errs : Nat → E) (max_retries k : Nat) (v : A) (e0 : E) :
    ((k < max_retries →
      (∀ i, i < k → f i = .error (errs i)) → f k = .ok v →
      retry_with_backoff f max_retries e0 =
        (.ok v, k + 1, (Finset.range k).sum (fun i => 2 ^ i))) ∧
     (1 ≤ max_retries →
      (∀ i, i < max_retries → f i = .error (errs i)) →
      retry_with_backoff f max_retries e0 =
        (.error (errs (max_retries - 1)), max_retries,
         (Finset.range (max_retries - 1)).sum (fun i => 2 ^ i)))) := by
  constructor
  · intro hk herrs hok
    unfold retry_with_backoff
    rw [retryGo_ok f v errs k 0 max_retries e0 hk
      (fun i hi => by simpa using herrs i hi) (by simpa using hok)]
    rw [sum_two_pow]
    simp
  · intro hm herrs
    unfold retry_with_backoff
    rw [retryGo_all_fail f errs max_retries 0 e0 hm
      (fun i hi => by simpa using herrs i hi)]
    rw [sum_two_pow]
    simp

/-- Witness for C4 at concrete inputs: two failures then success with three
allowed attempts, and three failures out of three. -/
theorem retry_with_backoff_spec_witness :
    retry_with_backoff
      (fun i => if i < 2 then Except.error "boom" else Except.ok 42) 3
      "init" = (Except.ok 42, 3, (Finset.range 2).sum (fun i => 2 ^ i)) ∧
    retry_with_backoff (fun _ => (Except.error "boom" : Except String Nat))
      3 "init" =
      (Except.error "boom", 3, (Finset.range 2).sum (fun i => 2 ^ i)) := by
  constructor
  · exact (retry_with_backoff_spec
      (fun i => if i < 2 then Except.error "boom" else Except.ok 42)
      (fun _ => "boom") 3 2 42 "init").1 (by omega)
      (fun i hi => by
        have h2 : i < 2 := hi
        simp [h2])
      (by simp)
  · exact (retry_with_backoff_spec
      (fun _ => (Except.error "boom" : Except String Nat))
      (fun _ => "boom") 3 0 0 "init").2 (by omega) (fun i _ => rfl)

theorem authenticate_memo_hit (f : Nat → Except String Int) (mr : Nat)
    (un db : String) (u : Int) (hu : u ≠ 0) :
    authenticate f mr un db (some u) = (.ok u, some u, 0) := by
  unfold authenticate
  rw [show pyTruthyInt (some u) = true from by simp [pyTruthyInt, hu]]
  rw [if_pos rfl]
  rfl

theorem authenticate_first_call (f : Nat → Except String Int) (mr : Nat)
    (un db : String) (u : Int) (h0 : f 0 = .ok u) (hu : u ≠ 0)
    (hm : 1 ≤ mr) :
    authenticate f mr un db none = (.ok u, some u, 1) := by
  unfold authenticate
  rw [show pyTruthyInt none = false from rfl]
  simp only [Bool.false_eq_true, if_false]
  unfold retry_with_backoff
  obtain ⟨r, rfl⟩ : ∃ r, mr = r + 1 := ⟨mr - 1, by omega⟩
  rw [retryGo_succ_ok f 0 r "No attempts made" u h0]
  dsimp only
  rw [if_neg hu]

theorem authenticate_times_spec (f : Nat → Except String Int) (mr : Nat)
    (un db : String) (u : Int) (h0 : f 0 = .ok u) (hu : u ≠ 0)
    (hm : 1 ≤ mr) :
    ∀ N, 1 ≤ N → authenticate_times f mr un db N =
      (some u, 1, List.replicate N (Except.ok u)) := by
  intro N hN
  induction N with
  | zero => omega
  | succ n ih =>
    rw [authenticate_times]
    by_cases hn : n = 0
    · subst hn
      rw [show authenticate_times f mr un db 0 = (none, 0, []) from rfl]
      dsimp only
      rw [authenticate_first_call f mr un db u h0 hu hm]
      rfl
    · rw [ih (by omega)]
      dsimp only
      rw [authenticate_memo_hit f mr un db u hu]
      dsimp only
      rw [replicate_snoc n (Except.ok u)]

/-- Claim C6: authenticate is idempotent. When the first backend attempt
succeeds with a truthy uid, N successive authenticate calls starting from
an empty memo all return that same uid, and in total at most one underlying
remote authentication call is performed. -/
theorem authenticate_idempotent (f : Nat → Except String Int) (mr : Nat)
    (un db : String) (u : Int) (N : Nat) (h0 : f 0 = .ok u) (hu : u ≠ 0)
    (hm : 1 ≤ mr) :
    (authenticate_times f mr un db N).2.1 ≤ 1 ∧
    (authenticate_times f mr un db N).2.2 =
      List.replicate N (Except.ok u) := by
  by_cases hN : N = 0
  · subst hN
    exact ⟨Nat.zero_le 1, rfl⟩
  · rw [authenticate_times_spec f mr un db u h0 hu hm N (by omega)]
    refine ⟨?_, rfl⟩
    dsimp only
    omega

/-- Witness for C6: a backend that immediately returns uid 7, three
authenticate calls. -/
theorem authenticate_idempotent_witness :
    (authenticate_times (fun _ => Except.ok 7) 3 "admin" "odoo" 2).2.1 ≤ 1 ∧
    (authenticate_times (fun _ => Except.ok 7) 3 "admin" "odoo" 2).2.2 =
      List.replicate 2 (Except.ok 7) :=
  authenticate_idempotent (fun _ => Except.ok 7) 3 "admin" "odoo" 7 2 rfl
    (by decide) (by decide)

/-- Claim C7 fails as stated: an execute_kw attempted while authentication
against the backend fails surfaces as the generic OdooClientError wrapping
the message, not as OdooAuthenticationError, because execute_kw catches
every exception and re-raises a plain OdooClientError. -/
theorem execute_kw_auth_failure_is_generic :
    (execute_kw (fun _ => Except.error "boom")
      (fun _ _ => (Except.error "x" : Except String (List Int))) 1
      "admin" "odoo" "res.partner" "search" none).1 =
      .error (.clientError
        "Error calling res.partner.search: Authentication error: boom") ∧
    ∀ am, (execute_kw (fun _ => Except.error "boom")
      (fun _ _ => (Except.error "x" : Except String (List Int))) 1
      "admin" "odoo" "res.partner" "search" none).1 ≠
      .error (.authError am) := by
  have h1 : (execute_kw (fun _ => Except.error "boom")
      (fun _ _ => (Except.error "x" : Except String (List Int))) 1
      "admin" "odoo" "res.partner" "search" none).1 =
      .error (.clientError
        "Error calling res.partner.search: Authentication error: boom") :=
    rfl
  refine ⟨h1, ?_⟩
  intro am hc
  rw [h1] at hc
  simp at hc

/-- Claim C7 (amended): whenever authenticate fails (the backend raises or
returns no identity, with or without a memoized uid), execute_kw fails with
the generic OdooClientError whose message wraps the model, the method and
the authentication error message; it never fails with
OdooAuthenticationError. -/
theorem execute_kw_wraps_auth_failure {A : Type}
    (f : Nat → Except String Int) (g : Int → Nat → Except String A)
    (mr : Nat) (un db model method : String) (uid : Option Int)
    (msg : String)
    (h : (authenticate f mr un db uid).1 = .error msg) :
    (execute_kw f g mr un db model method uid).1 =
      .error (.clientError ("Error calling " ++ model ++ "." ++ method ++
        ": " ++ msg)) ∧
    ∀ am, (execute_kw f g mr un db model method uid).1 ≠
      .error (.authError am) := by
  have h1 : (execute_kw f g mr un db model method uid).1 =
      .error (.clientError ("Error calling " ++ model ++ "." ++ method ++
        ": " ++ msg)) := by
    simp only [execute_kw, h]
  refine ⟨h1, ?_⟩
  intro am hc
  rw [h1] at hc
  simp at hc

/-- Witness for C7 (amended) at a concrete failing backend. -/
theorem execute_kw_wraps_auth_failure_witness :
    (execute_kw (fun _ => Except.error "down")
      (fun _ _ => (Except.error "x" : Except String Nat)) 2
      "admin" "odoo" "res.users" "read" none).1 =
      .error (.clientError
        "Error calling res.users.read: Authentication error: down") :=
  (execute_kw_wraps_auth_failure (fun _ => Except.error "down")
    (fun _ _ => (Except.error "x" : Except String Nat)) 2
    "admin" "odoo" "res.users" "read" none
    "Authentication error: down" rfl).1

theorem search_local_hit (ld : String → Except String (List Int))
    (dp : List Int → Except String String) (dttl : Nat)
    (remote : String → String → Option Int → Int → Option String → List Int)
    (lc : List (String × List Int)) (model domainStr : String)
    (limit : Option Int) (offset : Int) (order : Option String)
    (hcb : limit_cacheable limit = true) (v : List Int)
    (hv : alookup lc (search_cache_key model domainStr limit offset order)
      = some v) :
    search true none ld dp dttl remote lc model domainStr limit offset order
      = (v, lc, false) := by
  unfold search
  rw [if_pos (show (true : Bool) = true ∧ limit_cacheable limit = true from
    ⟨rfl, hcb⟩)]
  dsimp only
  rw [show cache_get none ld lc
    (search_cache_key model domainStr limit offset order)
    = alookup lc (search_cache_key model domainStr limit offset order)
    from rfl]
  rw [hv]

theorem search_local_miss (ld : String → Except String (List Int))
    (dp : List Int → Except String String) (dttl : Nat)
    (remote : String → String → Option Int → Int → Option String → List Int)
    (lc : List (String × List Int)) (model domainStr : String)
    (limit : Option Int) (offset : Int) (order : Option String)
    (hcb : limit_cacheable limit = true)
    (hv : alookup lc (search_cache_key model domainStr limit offset order)
      = none) :
    search true none ld dp dttl remote lc model domainStr limit offset order
      = (remote model domainStr limit offset order,
         ainsert lc (search_cache_key model domainStr limit offset order)
           (remote model domainStr limit offset order), true) := by
  unfold search
  rw [if_pos (show (true : Bool) = true ∧ limit_cacheable limit = true from
    ⟨rfl, hcb⟩)]
  dsimp only
  rw [show cache_get none ld lc
    (search_cache_key model domainStr limit offset order)
    = alookup lc (search_cache_key model domainStr limit offset order)
    from rfl]
  rw [hv]
  rfl

theorem search_nocache (redis : Option RedisClient)
    (ld : String → Except String (List Int))
    (dp : List Int → Except String String) (dttl : Nat)
    (remote : String → String → Option Int → Int → Option String → List Int)
    (lc : List (String × List Int)) (model domainStr : String)
    (limit : Option Int) (offset : Int) (order : Option String)
    (hcb : limit_cacheable limit = false) :
    search true redis ld dp dttl remote lc model domainStr limit offset
      order = (remote model domainStr limit offset order, lc, true) := by
  unfold search
  rw [if_neg (show ¬ ((true : Bool) = true ∧ limit_cacheable limit = true)
    from fun hc => by rw [hcb] at hc; exact Bool.false_ne_true hc.2)]

theorem search_redis_down (r : RedisClient)
    (ld : String → Except String (List Int))
    (dp : List Int → Except String String) (dttl : Nat)
    (remote : String → String → Option Int → Int → Option String → List Int)
    (lc : List (String × List Int)) (model domainStr : String)
    (limit : Option Int) (offset : Int) (order : Option String) (em : String)
    (hcb : limit_cacheable limit = true)
    (hget : r.rget (search_cache_key model domainStr limit offset order)
      = .error em)
    (hset : ∀ t s, r.rsetex
      (search_cache_key model domainStr limit offset order) t s
      = .error em) :
    search true (some r) ld dp dttl remote lc model domainStr limit offset
      order = (remote model domainStr limit offset order, lc, true) := by
  unfold search
  rw [if_pos (show (true : Bool) = true ∧ limit_cacheable limit = true from
    ⟨rfl, hcb⟩)]
  dsimp only
  rw [show cache_get (some r) ld lc
      (search_cache_key model domainStr limit offset order) = none from by
    simp only [cache_get, hget]]
  dsimp only
  rcases hdp : dp (remote model domainStr limit offset order) with em2 | s
  · simp only [cache_set, hdp]
  · simp only [cache_set, hdp, hset]

/-- Claim C5 fails as stated at a set limit of 0: Python evaluates the guard
limit and limit at most 100, a limit of 0 is falsy, so nothing is cached and
the second identical call still performs a remote call. -/
theorem search_limit_zero_not_cached :
    (0 : Int) ≤ 100 ∧
    (search true none (fun _ => Except.error "") (fun _ => Except.error "")
      300 (fun _ _ _ _ _ => [7])
      (search true none (fun _ => Except.error "")
        (fun _ => Except.error "") 300 (fun _ _ _ _ _ => [7]) []
        "res.partner" "[]" (some 0) 0 none).2.1
      "res.partner" "[]" (some 0) 0 none).2.2 = true := by
  exact ⟨by norm_num, rfl⟩

/-- Claim C5 (amended): with a cache manager present and the local backend,
when limit is set, nonzero and at most 100 the second identical search call
returns the first call result without a remote call; when limit is unset,
zero, or above 100 every call performs a remote call and the cache is left
unchanged. -/
theorem search_cache_spec (ld : String → Except String (List Int))
    (dp : List Int → Except String String) (dttl : Nat)
    (remote : String → String → Option Int → Int → Option String → List Int)
    (lc : List (String × List Int)) (model domainStr : String)
    (limit : Option Int) (offset : Int) (order : Option String) :
    (limit_cacheable limit = true →
      (search true none ld dp dttl remote
        (search true none ld dp dttl remote lc model domainStr limit offset
          order).2.1 model domainStr limit offset order).1 =
        (search true none ld dp dttl remote lc model domainStr limit offset
          order).1 ∧
      (search true none ld dp dttl remote
        (search true none ld dp dttl remote lc model domainStr limit offset
          order).2.1 model domainStr limit offset order).2.2 = false) ∧
    (limit_cacheable limit = false →
      search true none ld dp dttl remote lc model domainStr limit offset
        order = (remote model domainStr limit offset order, lc, true)) := by
  constructor
  · intro hcb
    rcases hget : alookup lc
        (search_cache_key model domainStr limit offset order) with _ | v
    · rw [search_local_miss ld dp dttl remote lc model domainStr limit
        offset order hcb hget]
      dsimp only
      rw [search_local_hit ld dp dttl remote _ model domainStr limit offset
        order hcb _ (alookup_ainsert_self lc _ _)]
      exact ⟨rfl, rfl⟩
    · rw [search_local_hit ld dp dttl remote lc model domainStr limit offset
        order hcb v hget]
      dsimp only
      rw [search_local_hit ld dp dttl remote lc model domainStr limit offset
        order hcb v hget]
      exact ⟨rfl, rfl⟩
  · intro hcb
    exact search_nocache none ld dp dttl remote lc model domainStr limit
      offset order hcb

/-- Witness for C5 (amended) at a concrete cacheable limit of 10. -/
theorem search_cache_spec_witness :
    (search true none (fun _ => Except.error "") (fun _ => Except.ok "")
      300 (fun _ _ _ _ _ => [1, 2])
      (search true none (fun _ => Except.error "") (fun _ => Except.ok "")
        300 (fun _ _ _ _ _ => [1, 2]) [] "res.partner" "[]" (some 10) 0
        none).2.1 "res.partner" "[]" (some 10) 0 none).2.2 = false ∧
    search true none (fun _ => Except.error "") (fun _ => Except.ok "") 300
      (fun _ _ _ _ _ => [1, 2]) [] "res.partner" "[]" none 0 none =
      ([1, 2], [], true) := by
  constructor
  · exact ((search_cache_spec (fun _ => Except.error "")
      (fun _ => Except.ok "") 300 (fun _ _ _ _ _ => [1, 2]) []
      "res.partner" "[]" (some 10) 0 none).1 (by decide)).2
  · exact (search_cache_spec (fun _ => Except.error "")
      (fun _ => Except.ok "") 300 (fun _ _ _ _ _ => [1, 2]) []
      "res.partner" "[]" none 0 none).2 (by decide)

/-- Claim C9: every cache operation is total for the caller. On a backend
error or a miss, get returns the absent value none; on a backend or
serialization error, set, delete and clear acknowledge failure with false
instead of raising; and a search whose cache backend is erroring still
performs the authoritative remote call and returns its result with the
local state untouched. -/
theorem cache_error_totality {V : Type} (r : RedisClient)
    (ld : String → Except String V) (dp : V → Except String String)
    (lc : List (String × V)) (key em : String) (dttl : Nat) (v : V)
    (ttl : Option Nat) :
    ((r.rget key = .error em → cache_get (some r) ld lc key = none) ∧
     (r.rget key = .ok none → cache_get (some r) ld lc key = none) ∧
     (alookup lc key = none → cache_get none ld lc key = none) ∧
     (dp v = .error em →
       cache_set (some r) dp dttl lc key v ttl = (lc, false)) ∧
     (∀ s, dp v = .ok s → r.rsetex key (py_ttl ttl dttl) s = .error em →
       cache_set (some r) dp dttl lc key v ttl = (lc, false)) ∧
     (r.rdel key = .error em → cache_delete (some r) lc key = (lc, false)) ∧
     (r.rflushdb () = .error em → cache_clear (some r) lc = (lc, false))) ∧
    (∀ (ld2 : String → Except String (List Int))
       (dp2 : List Int → Except String String)
       (remote : String → String → Option Int → Int → Option String →
         List Int)
       (lc2 : List (String × List Int)) (model domainStr : String)
       (limit : Option Int) (offset : Int) (order : Option String),
       limit_cacheable limit = true →
       r.rget (search_cache_key model domainStr limit offset order) =
         .error em →
       (∀ t s, r.rsetex (search_cache_key model domainStr limit offset
         order) t s = .error em) →
       search true (some r) ld2 dp2 dttl remote lc2 model domainStr limit
         offset order =
         (remote model domainStr limit offset order, lc2, true)) := by
  refine ⟨⟨?_, ?_, ?_, ?_, ?_, ?_, ?_⟩, ?_⟩
  · intro h
    simp only [cache_get, h]
  · intro h
    simp only [cache_get, h]
  · intro h
    exact h
  · intro h
    simp only [cache_set, h]
  · intro s hs hx
    simp only [cache_set, hs, hx]
  · intro h
    simp only [cache_delete, h]
  · intro h
    simp only [cache_clear, h]
  · intro ld2 dp2 remote lc2 model domainStr limit offset order hcb hget hset
    exact search_redis_down r ld2 dp2 dttl remote lc2 model domainStr limit
      offset order em hcb hget hset

/-- Witness for C9 with a backend whose every operation fails. -/
theorem cache_error_totality_witness :
    cache_get (some ⟨fun _ => Except.error "down",
        fun _ _ _ => Except.error "down", fun _ => Except.error "down",
        fun _ => Except.error "down"⟩)
      (fun _ => (Except.error "" : Except String Nat)) [] "k" = none ∧
    cache_set (some ⟨fun _ => Except.error "down",
        fun _ _ _ => Except.error "down", fun _ => Except.error "down",
        fun _ => Except.error "down"⟩)
      (fun _ => Except.ok "s") 300 ([] : List (String × Nat)) "k" 5 none =
      ([], false) ∧
    cache_delete (some ⟨fun _ => Except.error "down",
        fun _ _ _ => Except.error "down", fun _ => Except.error "down",
        fun _ => Except.error "down"⟩) ([] : List (String × Nat)) "k" =
      ([], false) ∧
    cache_clear (some ⟨fun _ => Except.error "down",
        fun _ _ _ => Except.error "down", fun _ => Except.error "down",
        fun _ => Except.error "down"⟩) ([] : List (String × Nat)) =
      ([], false) ∧
    search true (some ⟨fun _ => Except.error "down",
        fun _ _ _ => Except.error "down", fun _ => Except.error "down",
        fun _ => Except.error "down"⟩) (fun _ => Except.error "")
      (fun _ => Except.ok "s") 300 (fun _ _ _ _ _ => [7]) []
      "res.partner" "[]" (some 10) 0 none = ([7], [], true) := by
  refine ⟨?_, ?_, ?_, ?_, ?_⟩
  · exact (cache_error_totality ⟨fun _ => Except.error "down",
      fun _ _ _ => Except.error "down", fun _ => Except.error "down",
      fun _ => Except.error "down"⟩
      (fun _ => (Except.error "" : Except String Nat))
      (fun _ => Except.ok "s") [] "k" "down" 300 5 none).1.1 rfl
  · exact (cache_error_totality ⟨fun _ => Except.error "down",
      fun _ _ _ => Except.error "down", fun _ => Except.error "down",
      fun _ => Except.error "down"⟩
      (fun _ => (Except.error "" : Except String Nat))
      (fun _ => Except.ok "s") [] "k" "down" 300 5
      none).1.2.2.2.2.1 "s" rfl rfl
  · exact (cache_error_totality ⟨fun _ => Except.error "down",
      fun _ _ _ => Except.error "down", fun _ => Except.error "down",
      fun _ => Except.error "down"⟩
      (fun _ => (Except.error "" : Except String Nat))
      (fun _ => Except.ok "s") [] "k" "down" 300 5 none).1.2.2.2.2.2.1 rfl
  · exact (cache_error_totality ⟨fun _ => Except.error "down",
      fun _ _ _ => Except.error "down", fun _ => Except.error "down",
      fun _ => Except.error "down"⟩
      (fun _ => (Except.error "" : Except String Nat))
      (fun _ => Except.ok "s") [] "k" "down" 300 5 none).1.2.2.2.2.2.2 rfl
  · exact (cache_error_totality ⟨fun _ => Except.error "down",
      fun _ _ _ => Except.error "down", fun _ => Except.error "down",
      fun _ => Except.error "down"⟩
      (fun _ => (Except.error "" : Except String Nat))
      (fun _ => Except.ok "s") [] "k" "down" 300 5 none).2
      (fun _ => Except.error "") (fun _ => Except.ok "s")
      (fun _ _ _ _ _ => [7]) [] "res.partner" "[]" (some 10) 0 none
      (by decide) rfl (fun _ _ => rfl)

/-- Claim C1: the validations of exchange_code_for_token apply in source
order, each failing with its own error: unknown code gives InvalidGrant; an
expired code gives ExpiredGrant and the code is deleted from storage; a
code whose stored client_id differs from the supplied one gives
ClientMismatch; an unresolvable client gives InvalidClient; for a client
whose auth method is not none a secret different from the stored one gives
InvalidClientSecret; a redirect_uri differing from the stored one gives
RedirectMismatch; and when all checks pass a fresh access and refresh token
pair is stored, the code is deleted, and the response carries the access
token, token_type Bearer, expires_in 86400, the refresh token and the
stored scope. -/
theorem exchange_validation_order (m : OAuthManager) (st : OAuthState)
    (now : Nat) (fa fr code cid : String) (sec : Option String)
    (ruri : String) :
    (alookup st.codes code = none →
      exchange_code_for_token m st now fa fr code cid sec ruri =
        (st, .error .InvalidGrant)) ∧
    (∀ cd, alookup st.codes code = some cd →
      ((now > cd.expires_at →
        exchange_code_for_token m st now fa fr code cid sec ruri =
          ({ st with codes := aerase st.codes code },
           .error .ExpiredGrant)) ∧
       (¬ now > cd.expires_at →
        ((cd.client_id ≠ cid →
          exchange_code_for_token m st now fa fr code cid sec ruri =
            (st, .error .ClientMismatch)) ∧
         (cd.client_id = cid →
          ((m.get_client st cid = none →
            exchange_code_for_token m st now fa fr code cid sec ruri =
              (st, .error .InvalidClient)) ∧
           (∀ client, m.get_client st cid = some client →
            ((client.token_endpoint_auth_method ≠ "none" ∧
                sec ≠ client.client_secret →
              exchange_code_for_token m st now fa fr code cid sec ruri =
                (st, .error .InvalidClientSecret)) ∧
             (¬ (client.token_endpoint_auth_method ≠ "none" ∧
                  sec ≠ client.client_secret) →
              ((cd.redirect_uri ≠ ruri →
                exchange_code_for_token m st now fa fr code cid sec ruri =
                  (st, .error .RedirectMismatch)) ∧
               (cd.redirect_uri = ruri →
                exchange_code_for_token m st now fa fr code cid sec ruri =
                  ({ st with
                      tokens := ainsert st.tokens fa
                        ⟨cid, cd.scope, now, now + token_expiry_seconds,
                         fr⟩
                      codes := aerase st.codes code },
                   .ok ⟨fa, "Bearer", 86400, fr,
                        cd.scope⟩)))))))))))) := by
  refine ⟨?_, ?_⟩
  · intro h
    unfold exchange_code_for_token
    rw [h]
  · intro cd hcd
    refine ⟨?_, ?_⟩
    · intro hexp
      unfold exchange_code_for_token
      rw [hcd]
      dsimp only
      rw [if_pos hexp]
    · intro hexp
      refine ⟨?_, ?_⟩
      · intro hne
        unfold exchange_code_for_token
        rw [hcd]
        dsimp only
        rw [if_neg hexp, if_pos hne]
      · intro heq
        refine ⟨?_, ?_⟩
        · intro hg
          unfold exchange_code_for_token
          rw [hcd]
          dsimp only
          rw [if_neg hexp,
            if_neg (show ¬ cd.client_id ≠ cid from fun hc => hc heq), hg]
        · intro client hclient
          refine ⟨?_, ?_⟩
          · intro hsec
            unfold exchange_code_for_token
            rw [hcd]
            dsimp only
            rw [if_neg hexp,
              if_neg (show ¬ cd.client_id ≠ cid from fun hc => hc heq),
              hclient]
            dsimp only
            rw [if_pos hsec]
          · intro hsec
            refine ⟨?_, ?_⟩
            · intro hred
              unfold exchange_code_for_token
              rw [hcd]
              dsimp only
              rw [if_neg hexp,
                if_neg (show ¬ cd.client_id ≠ cid from fun hc => hc heq),
                hclient]
              dsimp only
              rw [if_neg hsec, if_pos hred]
            · intro hred
              unfold exchange_code_for_token
              rw [hcd]
              dsimp only
              rw [if_neg hexp,
                if_neg (show ¬ cd.client_id ≠ cid from fun hc => hc heq),
                hclient]
              dsimp only
              rw [if_neg hsec,
                if_neg (show ¬ cd.redirect_uri ≠ ruri from
                  fun hc => hc hred)]
              rfl

/-- Witness for C1: a complete successful exchange against the static
client at concrete values, exercising the final all-checks-pass branch. -/
theorem exchange_validation_order_witness :
    exchange_code_for_token ⟨"cg", "S"⟩
      ⟨[("K", ⟨"cg", "https://x/cb", none, "odoo:read", 0, 600⟩)], [], []⟩
      100 "AT" "RT" "K" "cg" (some "S") "https://x/cb" =
      (⟨[], [("AT", ⟨"cg", "odoo:read", 100, 100 + token_expiry_seconds,
         "RT"⟩)], []⟩,
       .ok ⟨"AT", "Bearer", 86400, "RT", "odoo:read"⟩) := by
  have h := ((((((exchange_validation_order ⟨"cg", "S"⟩
    ⟨[("K", ⟨"cg", "https://x/cb", none, "odoo:read", 0, 600⟩)], [], []⟩
    100 "AT" "RT" "K" "cg" (some "S") "https://x/cb").2
    ⟨"cg", "https://x/cb", none, "odoo:read", 0, 600⟩ (by decide)).2
    (by decide)).2 rfl).2
    ⟨"cg", some "S", "", ["https://chatgpt.com/oauth/callback",
      "https://chat.openai.com/oauth/callback"], [], [],
      "client_secret_basic", "", 0⟩ (by decide)).2 (by decide)).2 rfl
  exact h.trans (by decide)

/-- Claim C2: an authorization code successfully exchanged once is deleted
at the moment of exchange, and any second exchange of the same code fails
with InvalidGrant whatever client, secret or redirect accompany it. -/
theorem exchange_single_use (m : OAuthManager) (st : OAuthState) (now : Nat)
    (fa fr code cid : String) (sec : Option String) (ruri : String)
    (st2 : OAuthState) (resp : TokenResponse)
    (h : exchange_code_for_token m st now fa fr code cid sec ruri =
      (st2, .ok resp)) :
    alookup st2.codes code = none ∧
    ∀ (n2 : Nat) (fa2 fr2 cid2 : String) (sec2 : Option String)
      (ruri2 : String),
      exchange_code_for_token m st2 n2 fa2 fr2 code cid2 sec2 ruri2 =
        (st2, .error .InvalidGrant) := by
  have hcodes : alookup st2.codes code = none := by
    unfold exchange_code_for_token at h
    rcases hl : alookup st.codes code with _ | cd
    · rw [hl] at h
      dsimp only at h
      exact absurd (congrArg (fun p => p.2) h) (by simp)
    · rw [hl] at h
      dsimp only at h
      by_cases h1 : now > cd.expires_at
      · rw [if_pos h1] at h
        exact absurd (congrArg (fun p => p.2) h) (by simp)
      · rw [if_neg h1] at h
        by_cases h2 : cd.client_id ≠ cid
        · rw [if_pos h2] at h
          exact absurd (congrArg (fun p => p.2) h) (by simp)
        · rw [if_neg h2] at h
          rcases hg : m.get_client st cid with _ | client
          · rw [hg] at h
            dsimp only at h
            exact absurd (congrArg (fun p => p.2) h) (by simp)
          · rw [hg] at h
            dsimp only at h
            by_cases h3 : client.token_endpoint_auth_method ≠ "none" ∧
                sec ≠ client.client_secret
            · rw [if_pos h3] at h
              exact absurd (congrArg (fun p => p.2) h) (by simp)
            · rw [if_neg h3] at h
              by_cases h4 : cd.redirect_uri ≠ ruri
              · rw [if_pos h4] at h
                exact absurd (congrArg (fun p => p.2) h) (by simp)
              · rw [if_neg h4] at h
                have hst : st2 = { st with
                    tokens := ainsert st.tokens fa
                      ⟨cid, cd.scope, now, now + token_expiry_seconds, fr⟩
                    codes := aerase st.codes code } :=
                  (congrArg (fun p => p.1) h).symm
                rw [hst]
                exact alookup_aerase_self st.codes code
  refine ⟨hcodes, ?_⟩
  intro n2 fa2 fr2 cid2 sec2 ruri2
  unfold exchange_code_for_token
  rw [hcodes]

/-- Witness for C2: a concrete successful exchange, then the second attempt
with the same code is rejected with InvalidGrant. -/
theorem exchange_single_use_witness :
    exchange_code_for_token ⟨"cg", "S"⟩
      ⟨[], [("AT", ⟨"cg", "odoo:read", 100, 100 + token_expiry_seconds,
        "RT"⟩)], []⟩ 200 "A2" "R2" "K" "cg2" none "u" =
      (⟨[], [("AT", ⟨"cg", "odoo:read", 100, 100 + token_expiry_seconds,
        "RT"⟩)], []⟩, .error .InvalidGrant) :=
  (exchange_single_use ⟨"cg", "S"⟩
    ⟨[("K", ⟨"cg", "https://x/cb", none, "odoo:read", 0, 600⟩)], [], []⟩
    100 "AT" "RT" "K" "cg" (some "S") "https://x/cb"
    ⟨[], [("AT", ⟨"cg", "odoo:read", 100, 100 + token_expiry_seconds,
      "RT"⟩)], []⟩
    ⟨"AT", "Bearer", 86400, "RT", "odoo:read"⟩ (by decide)).2
    200 "A2" "R2" "cg2" none "u"

/-- Claim C10: a validation failure other than code expiry leaves the OAuth
state unchanged: every error outcome of exchange_code_for_token other than
ExpiredGrant returns the stored maps untouched (so the rejected code stays
redeemable), and every error outcome of refresh_access_token leaves the
state untouched as well. -/
theorem oauth_errors_preserve_state :
    (∀ (m : OAuthManager) (st : OAuthState) (now : Nat)
       (fa fr code cid : String) (sec : Option String) (ruri : String)
       (st2 : OAuthState) (e : OAuthError),
       exchange_code_for_token m st now fa fr code cid sec ruri =
         (st2, .error e) → e ≠ .ExpiredGrant → st2 = st) ∧
    (∀ (m : OAuthManager) (st : OAuthState) (now : Nat)
       (fa fr rt cid : String) (sec : Option String)
       (st2 : OAuthState) (e : OAuthError),
       refresh_access_token m st now fa fr rt cid sec = (st2, .error e) →
       st2 = st) := by
  constructor
  · intro m st now fa fr code cid sec ruri st2 e h hne
    unfold exchange_code_for_token at h
    rcases hl : alookup st.codes code with _ | cd
    · rw [hl] at h
      dsimp only at h
      exact (congrArg (fun p => p.1) h).symm
    · rw [hl] at h
      dsimp only at h
      by_cases h1 : now > cd.expires_at
      · rw [if_pos h1] at h
        have h5 := congrArg (fun p => p.2) h
        simp only [Except.error.injEq] at h5
        exact absurd h5.symm hne
      · rw [if_neg h1] at h
        by_cases h2 : cd.client_id ≠ cid
        · rw [if_pos h2] at h
          exact (congrArg (fun p => p.1) h).symm
        · rw [if_neg h2] at h
          rcases hg : m.get_client st cid with _ | client
          · rw [hg] at h
            dsimp only at h
            exact (congrArg (fun p => p.1) h).symm
          · rw [hg] at h
            dsimp only at h
            by_cases h3 : client.token_endpoint_auth_method ≠ "none" ∧
                sec ≠ client.client_secret
            · rw [if_pos h3] at h
              exact (congrArg (fun p => p.1) h).symm
            · rw [if_neg h3] at h
              by_cases h4 : cd.redirect_uri ≠ ruri
              · rw [if_pos h4] at h
                exact (congrArg (fun p => p.1) h).symm
              · rw [if_neg h4] at h
                exact absurd (congrArg (fun p => p.2) h) (by simp)
  · intro m st now fa fr rt cid sec st2 e h
    unfold refresh_access_token at h
    rcases hl : find_by_refresh st.tokens rt with _ | old
    · rw [hl] at h
      dsimp only at h
      exact (congrArg (fun p => p.1) h).symm
    · rw [hl] at h
      dsimp only at h
      by_cases h1 : old.1 = ""
      · rw [if_pos h1] at h
        exact (congrArg (fun p => p.1) h).symm
      · rw [if_neg h1] at h
        by_cases h2 : old.2.client_id ≠ cid
        · rw [if_pos h2] at h
          exact (congrArg (fun p => p.1) h).symm
        · rw [if_neg h2] at h
          rcases hg : m.get_client st cid with _ | client
          · rw [hg] at h
            dsimp only at h
            exact (congrArg (fun p => p.1) h).symm
          · rw [hg] at h
            dsimp only at h
            by_cases h3 : client.token_endpoint_auth_method ≠ "none" ∧
                sec ≠ client.client_secret
            · rw [if_pos h3] at h
              exact (congrArg (fun p => p.1) h).symm
            · rw [if_neg h3] at h
              exact absurd (congrArg (fun p => p.2) h) (by simp)

/-- Witness for C10: a client-mismatch rejection at concrete values leaves
the stored code untouched. -/
theorem oauth_errors_preserve_state_witness :
    (exchange_code_for_token ⟨"cg", "S"⟩
      ⟨[("K", ⟨"cg", "https://x/cb", none, "odoo:read", 0, 600⟩)], [], []⟩
      100 "AT" "RT" "K" "other" none "https://x/cb").1 =
      ⟨[("K", ⟨"cg", "https://x/cb", none, "odoo:read", 0, 600⟩)], [], []⟩ :=
  oauth_errors_preserve_state.1 ⟨"cg", "S"⟩
    ⟨[("K", ⟨"cg", "https://x/cb", none, "odoo:read", 0, 600⟩)], [], []⟩
    100 "AT" "RT" "K" "other" none "https://x/cb" _ .ClientMismatch
    (by decide) (by decide)

/-- Claim C3: after a successful refresh the old access token record is
gone, so validating it returns false; the freshly issued access token
validates true while unexpired; the new record carries the old scope; and a
second refresh with the old refresh token fails with InvalidGrant. The
freshness hypotheses state that the drawn tokens are new: the new access
token differs from the old one and the new refresh token from the old
refresh token, and the old refresh token belongs to exactly one record. -/
theorem refresh_rotation (m : OAuthManager) (st : OAuthState) (now : Nat)
    (fa fr rt cid : String) (sec : Option String) (old : String)
    (td : TokenData) (client : ClientData)
    (hfind : find_by_refresh st.tokens rt = some (old, td))
    (hold : old ≠ "")
    (hcid : td.client_id = cid)
    (hclient : m.get_client st cid = some client)
    (hsec : ¬ (client.token_endpoint_auth_method ≠ "none" ∧
      sec ≠ client.client_secret))
    (hfa : fa ≠ old) (hfr : fr ≠ rt)
    (huniq : ∀ p ∈ st.tokens, p.2.refresh_token = rt → p.1 = old) :
    (refresh_access_token m st now fa fr rt cid sec).2 =
      .ok ⟨fa, "Bearer", 86400, fr, td.scope⟩ ∧
    (∀ n2, validate_token (refresh_access_token m st now fa fr rt cid
      sec).1 n2 old =
      ((refresh_access_token m st now fa fr rt cid sec).1, false)) ∧
    (∀ n2, ¬ n2 > now + token_expiry_seconds →
      validate_token (refresh_access_token m st now fa fr rt cid sec).1 n2
        fa = ((refresh_access_token m st now fa fr rt cid sec).1, true)) ∧
    alookup (refresh_access_token m st now fa fr rt cid sec).1.tokens fa =
      some ⟨cid, td.scope, now, now + token_expiry_seconds, fr⟩ ∧
    (∀ (n3 : Nat) (fa2 fr2 cid2 : String) (sec2 : Option String),
      refresh_access_token m
        (refresh_access_token m st now fa fr rt cid sec).1 n3 fa2 fr2 rt
        cid2 sec2 =
        ((refresh_access_token m st now fa fr rt cid sec).1,
         .error .InvalidGrant)) := by
  have hres : refresh_access_token m st now fa fr rt cid sec =
      ({ st with tokens := aerase (ainsert st.tokens fa
          ⟨cid, td.scope, now, now + token_expiry_seconds, fr⟩) old },
       .ok ⟨fa, "Bearer", token_expiry_seconds, fr, td.scope⟩) := by
    unfold refresh_access_token
    rw [hfind]
    dsimp only
    rw [if_neg hold,
      if_neg (show ¬ td.client_id ≠ cid from fun hc => hc hcid), hclient]
    dsimp only
    rw [if_neg hsec]
  have hlf : alookup (aerase (ainsert st.tokens fa
      ⟨cid, td.scope, now, now + token_expiry_seconds, fr⟩) old) fa =
      some ⟨cid, td.scope, now, now + token_expiry_seconds, fr⟩ := by
    rw [alookup_aerase_ne _ hfa]
    exact alookup_ainsert_self _ _ _
  have hnone : find_by_refresh (aerase (ainsert st.tokens fa
      ⟨cid, td.scope, now, now + token_expiry_seconds, fr⟩) old) rt =
      none := by
    apply find_by_refresh_eq_none_of
    intro p hp
    rcases mem_aerase hp with ⟨hp1, hpne⟩
    rcases mem_ainsert hp1 with ⟨hmem, _⟩ | rfl
    · exact fun hceq => hpne (huniq p hmem hceq)
    · simpa using hfr
  refine ⟨?_, ?_, ?_, ?_, ?_⟩
  · rw [hres]
    rfl
  · intro n2
    rw [hres]
    unfold validate_token
    dsimp only
    rw [alookup_aerase_self]
  · intro n2 hn2
    rw [hres]
    unfold validate_token
    dsimp only
    rw [hlf]
    dsimp only
    rw [if_neg hn2]
  · rw [hres]
    dsimp only
    exact hlf
  · intro n3 fa2 fr2 cid2 sec2
    rw [hres]
    unfold refresh_access_token
    dsimp only
    rw [hnone]

/-- Witness for C3: concrete refresh of the single stored token against the
static client, then validations and a second refresh. -/
theorem refresh_rotation_witness :
    (refresh_access_token ⟨"cg", "S"⟩
      ⟨[], [("tokA", ⟨"cg", "odoo:read", 0, 1000, "rtA"⟩)], []⟩ 100 "tokB"
      "rtB" "rtA" "cg" (some "S")).2 =
      .ok ⟨"tokB", "Bearer", 86400, "rtB", "odoo:read"⟩ ∧
    validate_token (refresh_access_token ⟨"cg", "S"⟩
      ⟨[], [("tokA", ⟨"cg", "odoo:read", 0, 1000, "rtA"⟩)], []⟩ 100 "tokB"
      "rtB" "rtA" "cg" (some "S")).1 200 "tokA" =
      ((refresh_access_token ⟨"cg", "S"⟩
        ⟨[], [("tokA", ⟨"cg", "odoo:read", 0, 1000, "rtA"⟩)], []⟩ 100
        "tokB" "rtB" "rtA" "cg" (some "S")).1, false) ∧
    validate_token (refresh_access_token ⟨"cg", "S"⟩
      ⟨[], [("tokA", ⟨"cg", "odoo:read", 0, 1000, "rtA"⟩)], []⟩ 100 "tokB"
      "rtB" "rtA" "cg" (some "S")).1 200 "tokB" =
      ((refresh_access_token ⟨"cg", "S"⟩
        ⟨[], [("tokA", ⟨"cg", "odoo:read", 0, 1000, "rtA"⟩)], []⟩ 100
        "tokB" "rtB" "rtA" "cg" (some "S")).1, true) ∧
    refresh_access_token ⟨"cg", "S"⟩ (refresh_access_token ⟨"cg", "S"⟩
      ⟨[], [("tokA", ⟨"cg", "odoo:read", 0, 1000, "rtA"⟩)], []⟩ 100 "tokB"
      "rtB" "rtA" "cg" (some "S")).1 300 "tokC" "rtC" "rtA" "cg"
      (some "S") =
      ((refresh_access_token ⟨"cg", "S"⟩
        ⟨[], [("tokA", ⟨"cg", "odoo:read", 0, 1000, "rtA"⟩)], []⟩ 100
        "tokB" "rtB" "rtA" "cg" (some "S")).1, .error .InvalidGrant) := by
  have h := refresh_rotation ⟨"cg", "S"⟩
    ⟨[], [("tokA", ⟨"cg", "odoo:read", 0, 1000, "rtA"⟩)], []⟩ 100 "tokB"
    "rtB" "rtA" "cg" (some "S") "tokA" ⟨"cg", "odoo:read", 0, 1000, "rtA"⟩
    ⟨"cg", some "S", "", ["https://chatgpt.com/oauth/callback",
      "https://chat.openai.com/oauth/callback"], [], [],
      "client_secret_basic", "", 0⟩
    (by decide) (by decide) rfl (by decide) (by decide) (by decide)
    (by decide) (by decide)
  exact ⟨h.1, h.2.1 200, h.2.2.1 200 (by decide),
    h.2.2.2.2 300 "tokC" "rtC" "cg" (some "S")⟩

/-- Claim C8: registering a client with token_endpoint_auth_method none and
a non-empty redirect_uris list succeeds and the returned record carries no
client_secret; a subsequent generate_authorization_code and
exchange_code_for_token for that client succeed with the client_secret
absent, because the secret check is skipped for auth method none; and a
registration with an empty redirect_uris list fails and stores no client.
The hypotheses say the chosen redirect belongs to the registered list, the
generated dynamic client id does not collide with the static one, and the
code is exchanged inside its expiry window. -/
theorem register_none_flow (m : OAuthManager) (st : OAuthState)
    (now now2 now3 : Nat) (fid fsec nm : String) (uris : List String)
    (ruri fcode fa fr : String)
    (hu : uris ≠ []) (hruri : ruri ∈ uris)
    (hcid : "dynamic-" ++ fid ≠ m.client_id)
    (hexp : ¬ now3 > now2 + code_expiry_seconds) :
    (register_client st now fid fsec nm uris none none "none" none).2 =
      .ok ⟨"dynamic-" ++ fid, nm, uris,
        ["authorization_code", "refresh_token"], ["code"], "none", now,
        none⟩ ∧
    (generate_authorization_code m
      (register_client st now fid fsec nm uris none none "none" none).1
      now2 fcode ("dynamic-" ++ fid) ruri none none).2 = .ok fcode ∧
    (exchange_code_for_token m
      (generate_authorization_code m
        (register_client st now fid fsec nm uris none none "none" none).1
        now2 fcode ("dynamic-" ++ fid) ruri none none).1 now3 fa fr fcode
      ("dynamic-" ++ fid) none ruri).2 =
      .ok ⟨fa, "Bearer", 86400, fr, "odoo:read odoo:write"⟩ ∧
    (∀ (st0 : OAuthState) (n : Nat) (f1 f2 nm2 : String)
       (gt rt : Option (List String)) (am : String) (sc : Option String),
       register_client st0 n f1 f2 nm2 [] gt rt am sc =
         (st0, .error .InvalidRequest)) := by
  have hreg : register_client st now fid fsec nm uris none none "none"
      none =
      ({ st with clients := (ainsert st.clients ("dynamic-" ++ fid)
          ⟨"dynamic-" ++ fid, none, nm, uris,
           ["authorization_code", "refresh_token"], ["code"], "none",
           "odoo:read odoo:write", now⟩) },
       .ok ⟨"dynamic-" ++ fid, nm, uris,
            ["authorization_code", "refresh_token"], ["code"], "none", now,
            none⟩) := by
    unfold register_client
    dsimp only
    rw [if_neg hu]
    simp
  have hgc1 : OAuthManager.get_client m
      ({ st with clients := (ainsert st.clients ("dynamic-" ++ fid)
          ⟨"dynamic-" ++ fid, none, nm, uris,
           ["authorization_code", "refresh_token"], ["code"], "none",
           "odoo:read odoo:write", now⟩) }) ("dynamic-" ++ fid) =
      some ⟨"dynamic-" ++ fid, none, nm, uris,
        ["authorization_code", "refresh_token"], ["code"], "none",
        "odoo:read odoo:write", now⟩ := by
    unfold OAuthManager.get_client
    rw [if_neg hcid]
    exact alookup_ainsert_self _ _ _
  have hgen : generate_authorization_code m
      ({ st with clients := (ainsert st.clients ("dynamic-" ++ fid)
          ⟨"dynamic-" ++ fid, none, nm, uris,
           ["authorization_code", "refresh_token"], ["code"], "none",
           "odoo:read odoo:write", now⟩) }) now2 fcode ("dynamic-" ++ fid)
      ruri none none =
      ({ st with
          codes := (ainsert st.codes fcode
            ⟨"dynamic-" ++ fid, ruri, none, "odoo:read odoo:write", now2,
             now2 + code_expiry_seconds⟩)
          clients := (ainsert st.clients ("dynamic-" ++ fid)
            ⟨"dynamic-" ++ fid, none, nm, uris,
             ["authorization_code", "refresh_token"], ["code"], "none",
             "odoo:read odoo:write", now⟩) }, .ok fcode) := by
    unfold generate_authorization_code
    rw [hgc1]
    dsimp only
    rw [if_pos hruri]
    rfl
  have hgc2 : OAuthManager.get_client m
      ({ st with
          codes := (ainsert st.codes fcode
            ⟨"dynamic-" ++ fid, ruri, none, "odoo:read odoo:write", now2,
             now2 + code_expiry_seconds⟩)
          clients := (ainsert st.clients ("dynamic-" ++ fid)
            ⟨"dynamic-" ++ fid, none, nm, uris,
             ["authorization_code", "refresh_token"], ["code"], "none",
             "odoo:read odoo:write", now⟩) }) ("dynamic-" ++ fid) =
      some ⟨"dynamic-" ++ fid, none, nm, uris,
        ["authorization_code", "refresh_token"], ["code"], "none",
        "odoo:read odoo:write", now⟩ := by
    unfold OAuthManager.get_client
    rw [if_neg hcid]
    exact alookup_ainsert_self _ _ _
  refine ⟨?_, ?_, ?_, ?_⟩
  · rw [hreg]
  · rw [hreg]
    dsimp only
    rw [hgen]
  · rw [hreg]
    dsimp only
    rw [hgen]
    dsimp only
    unfold exchange_code_for_token
    rw [show alookup
      ({ st with
          codes := (ainsert st.codes fcode
            ⟨"dynamic-" ++ fid, ruri, none, "odoo:read odoo:write", now2,
             now2 + code_expiry_seconds⟩)
          clients := (ainsert st.clients ("dynamic-" ++ fid)
            ⟨"dynamic-" ++ fid, none, nm, uris,
             ["authorization_code", "refresh_token"], ["code"], "none",
             "odoo:read odoo:write", now⟩) } : OAuthState).codes fcode =
      some ⟨"dynamic-" ++ fid, ruri, none, "odoo:read odoo:write", now2,
        now2 + code_expiry_seconds⟩ from alookup_ainsert_self _ _ _]
    dsimp only
    rw [if_neg hexp,
      if_neg (show ¬ ("dynamic-" ++ fid) ≠ ("dynamic-" ++ fid) from
        fun hc => hc rfl), hgc2]
    dsimp only
    rw [if_neg (show ¬ (("none" : String) ≠ "none" ∧
        (none : Option String) ≠ none) from fun hc => hc.1 rfl),
      if_neg (show ¬ ruri ≠ ruri from fun hc => hc rfl)]
    rfl
  · intro st0 n f1 f2 nm2 gt rt am sc
    unfold register_client
    dsimp only
    rw [if_pos rfl]

/-- Witness for C8 at concrete values: dynamic registration without a
secret, code issuance, exchange, and the empty-list rejection. -/
theorem register_none_flow_witness :
    (register_client ⟨[], [], []⟩ 10 "abc" "sec" "agent" ["https://x/cb"]
      none none "none" none).2 =
      .ok ⟨"dynamic-abc", "agent", ["https://x/cb"],
        ["authorization_code", "refresh_token"], ["code"], "none", 10,
        none⟩ ∧
    (exchange_code_for_token ⟨"cg", "S"⟩
      (generate_authorization_code ⟨"cg", "S"⟩
        (register_client ⟨[], [], []⟩ 10 "abc" "sec" "agent"
          ["https://x/cb"] none none "none" none).1 20 "K"
        ("dynamic-abc") "https://x/cb" none none).1 30 "AT" "RT" "K"
      "dynamic-abc" none "https://x/cb").2 =
      .ok ⟨"AT", "Bearer", 86400, "RT", "odoo:read odoo:write"⟩ ∧
    register_client ⟨[], [], []⟩ 10 "abc" "sec" "agent" [] none none
      "client_secret_basic" none = (⟨[], [], []⟩, .error .InvalidRequest)
    := by
  have h := register_none_flow ⟨"cg", "S"⟩ ⟨[], [], []⟩ 10 20 30 "abc"
    "sec" "agent" ["https://x/cb"] "https://x/cb" "K" "AT" "RT"
    (by decide) (by decide) (by decide) (by decide)
  exact ⟨h.1, h.2.2.1, h.2.2.2 ⟨[], [], []⟩ 10 "abc" "sec" "agent" none
    none "client_secret_basic" none⟩
